import Mathlib

/-!
Shallow embedding of `plugins/module_utils/client.py` from the
`servicenow.itsm` Ansible collection: the `Response` wrapper (lazy,
memoized JSON decoding) and the `Client` (auth-header resolution and
caching, low-level dispatch with transport-error classification, table-API
URL construction, and the GET/POST/PUT/DELETE status contracts).

Python objects with mutable fields become Lean structures threaded
explicitly; exceptions become `Except`; the HTTP transport, which is an
external collaborator, is a parameter.  A ghost log of transport
invocations (`ClientState.calls`) records every request handed to the
transport so that "no network call" and "exactly one token-endpoint call"
become statements about the log.
-/

/-- JSON values, as produced by the external `json.loads` and consumed by
`json.dumps`.  Python `None` and JSON `null` are the same value, which the
embedding mirrors: `Json.null` plays both roles. -/
inductive Json where
  | null : Json
  | bool : Bool → Json
  | num : Int → Json
  | str : String → Json
  | arr : List Json → Json
  | obj : List (String × Json) → Json

/-- Python `x is None`, applied to a slot holding a JSON value. -/
def Json.isNull : Json → Bool
  | .null => true
  | _ => false

/-- Lower-case hexadecimal digit, used by JSON `\uXXXX` escapes. -/
def hexDigitL (n : Nat) : Char :=
  if n < 10 then Char.ofNat (48 + n) else Char.ofNat (87 + n)

/-- Upper-case hexadecimal digit, used by percent-encoding. -/
def hexDigitU (n : Nat) : Char :=
  if n < 10 then Char.ofNat (48 + n) else Char.ofNat (55 + n)

/-- Four lower-case hex digits. -/
def hex4 (n : Nat) : String :=
  String.mk [hexDigitL (n / 4096 % 16), hexDigitL (n / 256 % 16),
             hexDigitL (n / 16 % 16), hexDigitL (n % 16)]

/-- Modelled from the spec: the escaping a single character receives inside
a JSON string literal produced by the standard library serializer
(`json.dumps`, default `ensure_ascii`): the named escapes, `\u00XX` for
other control characters, literal ASCII otherwise, and `\uXXXX`
(surrogate pairs beyond the BMP) for non-ASCII. -/
def escapeChar (c : Char) : String :=
  if c = '"' then "\\\""
  else if c = '\\' then "\\\\"
  else if c = '\n' then "\\n"
  else if c = '\r' then "\\r"
  else if c = '\t' then "\\t"
  else if c.toNat = 8 then "\\b"
  else if c.toNat = 12 then "\\f"
  else if 32 ≤ c.toNat ∧ c.toNat < 127 then String.singleton c
  else if c.toNat < 65536 then "\\u" ++ hex4 c.toNat
  else
    let v := c.toNat - 65536
    "\\u" ++ hex4 (55296 + v / 1024) ++ "\\u" ++ hex4 (56320 + v % 1024)

/-- A JSON string literal: quotes around the escaped characters. -/
def dumpsString (s : String) : String :=
  "\"" ++ String.join (s.data.map escapeChar) ++ "\""

mutual
/-- Modelled from the spec: `json.dumps(data, separators=(",", ":"))` — the
compact serialization the client sends as a request body, with `","` between
items and `":"` between a key and its value and no whitespace anywhere
outside string literals. -/
def dumps : Json → String
  | .null => "null"
  | .bool true => "true"
  | .bool false => "false"
  | .num n => toString n
  | .str s => dumpsString s
  | .arr xs => "[" ++ dumpsArr xs ++ "]"
  | .obj kvs => "\x7b" ++ dumpsObj kvs ++ "\x7d"

/-- Array items joined by the `","` item separator. -/
def dumpsArr : List Json → String
  | [] => ""
  | [x] => dumps x
  | x :: y :: rest => dumps x ++ "," ++ dumpsArr (y :: rest)

/-- Object entries `key:value` joined by the `","` item separator. -/
def dumpsObj : List (String × Json) → String
  | [] => ""
  | [(k, v)] => dumpsString k ++ ":" ++ dumps v
  | (k, v) :: y :: rest => dumpsString k ++ ":" ++ dumps v ++ "," ++ dumpsObj (y :: rest)
end

/-- The UTF-8 bytes of a string (percent-encoding, form encoding and
base64 all operate on these). -/
def utf8Bytes (s : String) : List UInt8 := s.data.flatMap String.utf8EncodeChar

/-- Bytes left literal by `urllib.parse.quote` with the default
`safe="/"`: ASCII letters, digits, `_`, `.`, `-`, `~` and `/`. -/
def quoteSafeByte (b : UInt8) : Bool :=
  let c := b.toNat
  (65 ≤ c && c ≤ 90) || (97 ≤ c && c ≤ 122) || (48 ≤ c && c ≤ 57) ||
    c == 95 || c == 46 || c == 45 || c == 126 || c == 47

/-- `%XX` with upper-case hex, the percent-encoding of one byte. -/
def percentByte (b : UInt8) : String :=
  String.mk ['%', hexDigitU (b.toNat / 16), hexDigitU (b.toNat % 16)]

/-- Modelled from the spec: `urllib.parse.quote` with the default
`safe="/"` — percent-encode every UTF-8 byte outside the safe set. -/
def quote (s : String) : String :=
  (utf8Bytes s).foldl
    (fun acc b =>
      acc ++ (if quoteSafeByte b then String.singleton (Char.ofNat b.toNat)
              else percentByte b)) ""

/-- Bytes left literal by `urllib.parse.quote_plus` (no extra safe
characters): ASCII letters, digits, `_`, `.`, `-`, `~`. -/
def quotePlusSafeByte (b : UInt8) : Bool :=
  let c := b.toNat
  (65 ≤ c && c ≤ 90) || (97 ≤ c && c ≤ 122) || (48 ≤ c && c ≤ 57) ||
    c == 95 || c == 46 || c == 45 || c == 126

/-- Modelled from the spec: `urllib.parse.quote_plus` — like `quote` with
an empty safe set, except a space becomes `+`. -/
def quotePlus (s : String) : String :=
  (utf8Bytes s).foldl
    (fun acc b =>
      acc ++ (if b.toNat = 32 then "+"
              else if quotePlusSafeByte b then String.singleton (Char.ofNat b.toNat)
              else percentByte b)) ""

/-- Modelled from the spec: `urllib.parse.urlencode` over the login form
dict — `key=value` pairs in insertion order, each side `quote_plus`-encoded,
joined by `&`. -/
def urlencode (kvs : List (String × String)) : String :=
  String.intercalate "&" (kvs.map fun kv => quotePlus kv.1 ++ "=" ++ quotePlus kv.2)

/-- The base64 alphabet. -/
def b64Alphabet : List Char :=
  "ABCDEFGHIJKLMNOPQRSTUVWXYZabcdefghijklmnopqrstuvwxyz0123456789+/".data

/-- Character `n` of the base64 alphabet. -/
def b64Char (n : Nat) : Char := b64Alphabet.getD n 'A'

/-- Standard base64 of a byte list, with `=` padding. -/
def base64Encode : List UInt8 → String
  | [] => ""
  | [a] =>
      String.mk [b64Char (a.toNat / 4), b64Char (a.toNat % 4 * 16), '=', '=']
  | [a, b] =>
      String.mk [b64Char (a.toNat / 4), b64Char (a.toNat % 4 * 16 + b.toNat / 16),
                 b64Char (b.toNat % 16 * 4), '=']
  | a :: b :: c :: rest =>
      String.mk [b64Char (a.toNat / 4), b64Char (a.toNat % 4 * 16 + b.toNat / 16),
                 b64Char (b.toNat % 16 * 4 + c.toNat / 64), b64Char (c.toNat % 64)] ++
        base64Encode rest

/-- Modelled from the spec: `ansible.module_utils.urls.basic_auth_header`
— the standard basic-auth encoding `Basic base64(username:password)`. -/
def basic_auth_header (username password : String) : String :=
  "Basic " ++ base64Encode (utf8Bytes (username ++ ":" ++ password))

/-- Python `str()` of a JSON value, as applied by `"Bearer {0}".format(...)`
to the extracted access token (a string in every sane token response). -/
def pyStr : Json → String
  | .str s => s
  | .num n => toString n
  | .bool true => "True"
  | .bool false => "False"
  | .null => "None"
  | j => dumps j

/-- First binding of `key` in an association list, the lookup a dict built
by `json.loads` answers. -/
def lookupA : List (String × Json) → String → Option Json
  | [], _ => none
  | (k, v) :: rest, key => if k = key then some v else lookupA rest key

/-- Python subscript `j[key]`: a value only when `j` is an object holding
the key. -/
def jsonGet : Json → String → Option Json
  | .obj kvs, key => lookupA kvs key
  | _, _ => none

/-- Python `dict.__setitem__`: overwrite in place if the key exists,
append otherwise. -/
def dictInsert (m : List (String × String)) (k v : String) : List (String × String) :=
  if m.any (fun p => p.1 == k) then m.map (fun p => if p.1 = k then (k, v) else p)
  else m ++ [(k, v)]

/-- Python `dict(pairs)`: fold the pairs with `dictInsert`, so a later
duplicate overwrites the earlier value in place. -/
def dictOf (ps : List (String × String)) : List (String × String) :=
  ps.foldl (fun m p => dictInsert m p.1 p.2) []

/-- The error taxonomy of `errors.py` as imported by the client:
`ServiceNowError` (network failures and malformed JSON), `AuthError`
(HTTP 401), `UnexpectedAPIResponse(status, body)` (a status a verb does
not accept), plus the propagated Python lookup failure for a token
response without `access_token`. -/
inductive SnowErr where
  | serviceNow : String → SnowErr
  | auth : String → SnowErr
  | unexpectedAPIResponse : Nat → String → SnowErr
  | lookupFailure : String → SnowErr
deriving DecidableEq, Repr

/-- `Response`: raw status, raw body, headers dict, and the `_json` slot.
Python initializes `_json` to `None`; because a parsed JSON `null` is the
same Python value `None`, the slot is a single `Json` value and the
"unset" mark is `Json.null` — exactly the conflation in the source. -/
structure Response where
  status : Nat
  data : String
  headers : List (String × String)
  jsonCache : Json

/-- `Response.__init__(status, data, headers=None)`: headers pairs become a
dict, `_json` starts as `None`. -/
def Response.make (status : Nat) (data : String)
    (headers : List (String × String) := []) : Response :=
  { status := status, data := data, headers := dictOf headers, jsonCache := Json.null }

/-- The `json` property, parameterized by the external parser `loads`
(`json.loads`: `none` models a `ValueError`).  Returns the value, the
response after the access (the cache may have been filled), and how many
parses this access performed (0 or 1). -/
def Response.getJson (loads : String → Option Json) (r : Response) :
    Except SnowErr (Json × Response × Nat) :=
  if r.jsonCache.isNull then
    match loads r.data with
    | none => .error (.serviceNow ("Received invalid JSON response: " ++ r.data))
    | some j => .ok (j, { r with jsonCache := j }, 1)
  else
    .ok (r.jsonCache, r, 0)

/-- Outcome of one invocation of the external HTTP transport
(`Request.open`): a raw response, an `HTTPError` (carries a status code
and a reason phrase), or a `URLError` (network-level, no status). -/
inductive TransportResult where
  | ok : Nat → String → List (String × String) → TransportResult
  | httpError : Nat → String → TransportResult
  | urlError : String → TransportResult

/-- One request handed to the transport: the arguments of
`self._client.open(method, path, data=data, headers=headers)`. -/
structure SentRequest where
  method : String
  url : String
  data : Option String
  headers : List (String × String)
deriving DecidableEq, Repr

/-- The external collaborators: the HTTP transport and the JSON parser. -/
structure Env where
  transport : SentRequest → TransportResult
  loads : String → Option Json

/-- The immutable identity fields set by `Client.__init__`. -/
structure Config where
  host : String
  username : String
  password : String
  clientId : Option String
  clientSecret : Option String

/-- The client's mutable state: the `_auth_header` cache slot, plus the
ghost log of every request handed to the transport (used to count network
calls; it has no counterpart in the source and influences nothing). -/
structure ClientState where
  authHeaderCache : Option (List (String × String))
  calls : List SentRequest

/-- State right after `Client.__init__`: `_auth_header = None`, no
transport call made yet. -/
def freshState : ClientState := { authHeaderCache := none, calls := [] }

/-- Python truthiness of an optional string argument: `None` and `""` are
falsy. -/
def truthyOpt : Option String → Bool
  | none => false
  | some s => !s.isEmpty

/-- Python `not self._auth_header`: true for `None` and for an empty
dict. -/
def headerCacheFalsy : Option (List (String × String)) → Bool
  | none => true
  | some h => h.isEmpty

/-- Python `str()` of the optional OAuth argument as the urlencoded form
would render it (only ever reached with a non-empty string). -/
def optVal : Option String → String
  | none => "None"
  | some s => s

/-- The form-encoded body of the OAuth password-grant login request. -/
def oauthFormData (cfg : Config) : String :=
  urlencode
    [("grant_type", "password"),
     ("username", cfg.username),
     ("password", cfg.password),
     ("client_id", optVal cfg.clientId),
     ("client_secret", optVal cfg.clientSecret)]

/-- The token endpoint URL `<host>/oauth_token.do`. -/
def tokenURL (cfg : Config) : String := cfg.host ++ "/oauth_token.do"

/-- The exact request `_login_oauth` hands to the transport. -/
def oauthTokenRequest (cfg : Config) : SentRequest :=
  { method := "POST", url := tokenURL cfg, data := some (oauthFormData cfg),
    headers := [("Accept", "application/json")] }

/-- How many of the logged transport calls went to the token endpoint. -/
def countTokenCalls (cfg : Config) (calls : List SentRequest) : Nat :=
  (calls.filter (fun r => r.url == tokenURL cfg)).length

/-- `Client._request`: invoke the transport and classify the outcome.
An `HTTPError` with code 401 raises `AuthError`; any other `HTTPError`
becomes an ordinary `Response` carrying the code and the reason text; a
`URLError` raises `ServiceNowError`; a raw response is wrapped whole. -/
def Client._request (env : Env) (st : ClientState) (method url : String)
    (data : Option String) (headers : List (String × String)) :
    Except SnowErr (Response × ClientState) :=
  let req : SentRequest := { method := method, url := url, data := data, headers := headers }
  let st' : ClientState := { st with calls := st.calls ++ [req] }
  match env.transport req with
  | .httpError code reason =>
      if code = 401 then
        .error (.auth ("Failed to authenticate with the instance: " ++
          toString code ++ " " ++ reason))
      else
        .ok (Response.make code reason, st')
  | .urlError reason => .error (.serviceNow reason)
  | .ok status body respHeaders => .ok (Response.make status body respHeaders, st')

/-- `Client._login_username_password`: the basic-auth header, no network. -/
def Client._login_username_password (cfg : Config) : List (String × String) :=
  [("Authorization", basic_auth_header cfg.username cfg.password)]

/-- `Client._login_oauth`: POST the password-grant form to
`<host>/oauth_token.do`; on status 200 extract `access_token` from the
JSON body and build a bearer header, on any other status raise
`UnexpectedAPIResponse(status, body)`. -/
def Client._login_oauth (env : Env) (cfg : Config) (st : ClientState) :
    Except SnowErr (List (String × String) × ClientState) :=
  match Client._request env st "POST" (tokenURL cfg) (some (oauthFormData cfg))
      [("Accept", "application/json")] with
  | .error e => .error e
  | .ok (resp, st1) =>
      if resp.status ≠ 200 then
        .error (.unexpectedAPIResponse resp.status resp.data)
      else
        match Response.getJson env.loads resp with
        | .error e => .error e
        | .ok (j, _, _) =>
            match jsonGet j "access_token" with
            | none => .error (.lookupFailure "access_token")
            | some tok => .ok ([("Authorization", "Bearer " ++ pyStr tok)], st1)

/-- `Client._login`: OAuth password grant when both `client_id` and
`client_secret` are truthy, basic auth otherwise. -/
def Client._login (env : Env) (cfg : Config) (st : ClientState) :
    Except SnowErr (List (String × String) × ClientState) :=
  if truthyOpt cfg.clientId && truthyOpt cfg.clientSecret then
    Client._login_oauth env cfg st
  else
    .ok (Client._login_username_password cfg, st)

/-- The `auth_header` property: log in and fill the cache slot when it is
falsy, answer from the cache otherwise. -/
def Client.auth_header (env : Env) (cfg : Config) (st : ClientState) :
    Except SnowErr (List (String × String) × ClientState) :=
  if headerCacheFalsy st.authHeaderCache then
    match Client._login env cfg st with
    | .error e => .error e
    | .ok (h, st1) => .ok (h, { st1 with authHeaderCache := some h })
  else
    .ok (st.authHeaderCache.getD [], st)

/-- Python `path.rstrip("/")`: drop every trailing slash. -/
def rstripSlashes (s : String) : String :=
  String.mk ((s.data.reverse.dropWhile (fun c => c = '/')).reverse)

/-- `Client.request`: strip the trailing slash, percent-encode, prefix
`<host>/api/now/`, merge `Accept: application/json` with the (lazily
resolved) auth header, serialize a present payload to compact JSON with
`Content-type: application/json`, and dispatch through `_request`. -/
def Client.request (env : Env) (cfg : Config) (st : ClientState)
    (method path : String) (data : Option Json) :
    Except SnowErr (Response × ClientState) :=
  let escaped_path := quote (rstripSlashes path)
  let url := cfg.host ++ "/api/now/" ++ escaped_path
  match Client.auth_header env cfg st with
  | .error e => .error e
  | .ok (ah, st1) =>
      let headers := dictOf (("Accept", "application/json") :: ah)
      match data with
      | none => Client._request env st1 method url none headers
      | some d =>
          Client._request env st1 method url (some (dumps d))
            (dictInsert headers "Content-type" "application/json")

/-- `Client.get`: 200 and 404 pass through, anything else raises
`UnexpectedAPIResponse`. -/
def Client.get (env : Env) (cfg : Config) (st : ClientState) (path : String) :
    Except SnowErr (Response × ClientState) :=
  match Client.request env cfg st "GET" path none with
  | .error e => .error e
  | .ok (resp, st1) =>
      if resp.status = 200 ∨ resp.status = 404 then .ok (resp, st1)
      else .error (.unexpectedAPIResponse resp.status resp.data)

/-- `Client.post`: only 201 passes through. -/
def Client.post (env : Env) (cfg : Config) (st : ClientState) (path : String)
    (data : Json) : Except SnowErr (Response × ClientState) :=
  match Client.request env cfg st "POST" path (some data) with
  | .error e => .error e
  | .ok (resp, st1) =>
      if resp.status = 201 then .ok (resp, st1)
      else .error (.unexpectedAPIResponse resp.status resp.data)

/-- `Client.put`: only 200 passes through. -/
def Client.put (env : Env) (cfg : Config) (st : ClientState) (path : String)
    (data : Json) : Except SnowErr (Response × ClientState) :=
  match Client.request env cfg st "PUT" path (some data) with
  | .error e => .error e
  | .ok (resp, st1) =>
      if resp.status = 200 then .ok (resp, st1)
      else .error (.unexpectedAPIResponse resp.status resp.data)

/-- `Client.delete`: anything but 204 raises; 204 returns nothing. -/
def Client.delete (env : Env) (cfg : Config) (st : ClientState) (path : String) :
    Except SnowErr (Unit × ClientState) :=
  match Client.request env cfg st "DELETE" path none with
  | .error e => .error e
  | .ok (resp, st1) =>
      if resp.status ≠ 204 then .error (.unexpectedAPIResponse resp.status resp.data)
      else .ok ((), st1)

/-- A concrete stand-in for `json.loads`, defined on the bodies the
witnesses use. -/
def toyLoads : String → Option Json
  | "null" => some Json.null
  | "\x7b\"access_token\":\"T\"\x7d" => some (Json.obj [("access_token", Json.str "T")])
  | "\x7b\"a\":1\x7d" => some (Json.obj [("a", Json.num 1)])
  | _ => none

/-- A basic-auth configuration. -/
def cfgBasic : Config :=
  { host := "https://sn.example", username := "u", password := "p",
    clientId := none, clientSecret := none }

/-- An OAuth configuration. -/
def cfgOAuth : Config :=
  { host := "https://sn.example", username := "u", password := "p",
    clientId := some "ci", clientSecret := some "cs" }

/-- A transport that always answers with the given raw status. -/
def envOk (status : Nat) : Env :=
  { transport := fun _ => .ok status "body" [], loads := toyLoads }

/-- A transport that always raises `HTTPError` with the given code. -/
def envHttpErr (code : Nat) : Env :=
  { transport := fun _ => .httpError code "Oops", loads := toyLoads }

/-- A transport that always raises a network-level `URLError`. -/
def envNet : Env :=
  { transport := fun _ => .urlError "no route to host", loads := toyLoads }

/-- A transport serving the OAuth token endpoint (token `T`) and answering
every other URL with the given status. -/
def envOAuth (status : Nat) : Env :=
  { transport := fun req =>
      if req.url == tokenURL cfgOAuth then .ok 200 "\x7b\"access_token\":\"T\"\x7d" []
      else .ok status "body" [],
    loads := toyLoads }

/-- A transport whose token endpoint answers with a non-200 status. -/
def envOAuthBad (status : Nat) : Env :=
  { transport := fun req =>
      if req.url == tokenURL cfgOAuth then .ok status "denied" []
      else .ok 200 "body" [],
    loads := toyLoads }


/-- The full table-API URL `request` builds for a relative path. -/
def apiURL (cfg : Config) (path : String) : String :=
  cfg.host ++ "/api/now/" ++ quote (rstripSlashes path)

theorem _request_ok_state (env : Env) (st : ClientState) (m url : String)
    (d : Option String) (hs : List (String × String)) (resp : Response)
    (st' : ClientState)
    (h : Client._request env st m url d hs = .ok (resp, st')) :
    st' = { st with calls :=
              st.calls ++ [{ method := m, url := url, data := d, headers := hs }] } := by
  simp only [Client._request] at h
  split at h
  · split at h
    · exact absurd h (by simp)
    · simp only [Except.ok.injEq, Prod.mk.injEq] at h
      exact h.2.symm
  · exact absurd h (by simp)
  · simp only [Except.ok.injEq, Prod.mk.injEq] at h
    exact h.2.symm

theorem _login_ok_shape (env : Env) (cfg : Config) (st : ClientState)
    (hd : List (String × String)) (st1 : ClientState)
    (h : Client._login env cfg st = .ok (hd, st1)) :
    ∃ v, hd = [("Authorization", v)] := by
  unfold Client._login at h
  split at h
  · unfold Client._login_oauth at h
    split at h
    · exact absurd h (by simp)
    · split at h
      · exact absurd h (by simp)
      · split at h
        · exact absurd h (by simp)
        · split at h
          · exact absurd h (by simp)
          · simp only [Except.ok.injEq, Prod.mk.injEq] at h
            exact ⟨_, h.1.symm⟩
  · simp only [Except.ok.injEq, Prod.mk.injEq] at h
    exact ⟨_, h.1.symm⟩

theorem _login_oauth_ok_state (env : Env) (cfg : Config) (st : ClientState)
    (hd : List (String × String)) (st1 : ClientState)
    (h : Client._login_oauth env cfg st = .ok (hd, st1)) :
    st1 = { st with calls := st.calls ++ [oauthTokenRequest cfg] } := by
  unfold Client._login_oauth at h
  split at h
  · exact absurd h (by simp)
  · rename_i resp st2 heq
    split at h
    · exact absurd h (by simp)
    · split at h
      · exact absurd h (by simp)
      · split at h
        · exact absurd h (by simp)
        · simp only [Except.ok.injEq, Prod.mk.injEq] at h
          rw [← h.2]
          exact _request_ok_state env st _ _ _ _ resp st2 heq

theorem _login_ok_state (env : Env) (cfg : Config) (st : ClientState)
    (hd : List (String × String)) (st1 : ClientState)
    (h : Client._login env cfg st = .ok (hd, st1)) :
    st1 = st ∨ st1 = { st with calls := st.calls ++ [oauthTokenRequest cfg] } := by
  unfold Client._login at h
  split at h
  · exact Or.inr (_login_oauth_ok_state env cfg st hd st1 h)
  · simp only [Except.ok.injEq, Prod.mk.injEq] at h
    exact Or.inl h.2.symm

theorem auth_header_ok_cache (env : Env) (cfg : Config) (st : ClientState)
    (hd : List (String × String)) (st1 : ClientState)
    (h : Client.auth_header env cfg st = .ok (hd, st1)) :
    st1.authHeaderCache = some hd ∧ hd ≠ [] ∧
      Client.auth_header env cfg st1 = .ok (hd, st1) := by
  have hmain : st1.authHeaderCache = some hd ∧ hd ≠ [] := by
    unfold Client.auth_header at h
    split at h
    · split at h
      · exact absurd h (by simp)
      · rename_i h2 st2 heq
        simp only [Except.ok.injEq, Prod.mk.injEq] at h
        obtain ⟨v, hv⟩ := _login_ok_shape env cfg st h2 st2 heq
        constructor
        · rw [← h.2, ← h.1]
        · rw [← h.1, hv]; simp
    · rename_i hc
      simp only [Bool.not_eq_true] at hc
      cases hst : st.authHeaderCache with
      | none => rw [hst] at hc; simp [headerCacheFalsy] at hc
      | some h0 =>
        rw [hst] at hc h
        simp only [headerCacheFalsy] at hc
        simp only [Option.getD_some, Except.ok.injEq, Prod.mk.injEq] at h
        constructor
        · rw [← h.2, hst, h.1]
        · rw [← h.1]
          intro hnil
          rw [hnil] at hc
          simp at hc
  refine ⟨hmain.1, hmain.2, ?_⟩
  have hfalsy : headerCacheFalsy st1.authHeaderCache = false := by
    rw [hmain.1]
    cases hd with
    | nil => exact absurd rfl hmain.2
    | cons a l => rfl
  unfold Client.auth_header
  rw [hfalsy]
  simp [hmain.1]

theorem auth_header_oauth_one_call (env : Env) (cfg : Config) (st : ClientState)
    (hd : List (String × String)) (st1 : ClientState)
    (hfresh : headerCacheFalsy st.authHeaderCache = true)
    (hid : truthyOpt cfg.clientId = true) (hsec : truthyOpt cfg.clientSecret = true)
    (h : Client.auth_header env cfg st = .ok (hd, st1)) :
    st1.calls = st.calls ++ [oauthTokenRequest cfg] := by
  unfold Client.auth_header at h
  rw [hfresh] at h
  simp only [if_true] at h
  unfold Client._login at h
  rw [hid, hsec] at h
  simp only [Bool.and_self, if_true] at h
  split at h
  · exact absurd h (by simp)
  · rename_i h2 st2 heq
    simp only [Except.ok.injEq, Prod.mk.injEq] at h
    have := _login_oauth_ok_state env cfg st h2 st2 heq
    rw [← h.2, this]

theorem auth_header_ok_calls (env : Env) (cfg : Config) (st : ClientState)
    (hd : List (String × String)) (st1 : ClientState)
    (h : Client.auth_header env cfg st = .ok (hd, st1)) :
    st1.calls = st.calls ∨ st1.calls = st.calls ++ [oauthTokenRequest cfg] := by
  unfold Client.auth_header at h
  split at h
  · split at h
    · exact absurd h (by simp)
    · rename_i h2 st2 heq
      simp only [Except.ok.injEq, Prod.mk.injEq] at h
      rcases _login_ok_state env cfg st h2 st2 heq with h3 | h3
      · left; rw [← h.2, h3]
      · right; rw [← h.2, h3]
  · simp only [Except.ok.injEq, Prod.mk.injEq] at h
    left
    rw [← h.2]

theorem request_ok_split (env : Env) (cfg : Config) (st : ClientState)
    (m path : String) (d : Option Json) (resp : Response) (st2 : ClientState)
    (h : Client.request env cfg st m path d = .ok (resp, st2)) :
    ∃ ah st1, Client.auth_header env cfg st = .ok (ah, st1) ∧
      st2.authHeaderCache = st1.authHeaderCache ∧
      ∃ body hs, st2.calls =
        st1.calls ++ [{ method := m, url := apiURL cfg path, data := body, headers := hs }] := by
  simp only [Client.request] at h
  split at h
  · exact absurd h (by simp)
  · rename_i ah st1 heq
    refine ⟨ah, st1, heq, ?_⟩
    split at h
    · have := _request_ok_state env st1 _ _ _ _ resp st2 h
      rw [this]
      exact ⟨rfl, none, _, rfl⟩
    · have := _request_ok_state env st1 _ _ _ _ resp st2 h
      rw [this]
      exact ⟨rfl, _, _, rfl⟩

theorem apiURL_ne_tokenURL (cfg : Config) (p : String) :
    apiURL cfg p ≠ tokenURL cfg := by
  unfold apiURL tokenURL
  intro h
  have hd := congrArg String.data h
  rw [String.data_append (cfg.host ++ "/api/now/") (quote (rstripSlashes p)),
      String.data_append cfg.host "/api/now/",
      String.data_append cfg.host "/oauth_token.do", List.append_assoc] at hd
  have h2 := List.append_cancel_left hd
  have h3 : ('/' :: 'a' :: 'p' :: 'i' :: '/' :: 'n' :: 'o' :: 'w' :: '/' :: ([] : List Char)) ++
      (quote (rstripSlashes p)).data =
      ('/' :: 'o' :: 'a' :: 'u' :: 't' :: 'h' :: '_' :: 't' :: 'o' :: 'k' :: 'e' :: 'n' ::
        '.' :: 'd' :: 'o' :: []) := h2
  simp at h3

theorem countTokenCalls_append (cfg : Config) (a b : List SentRequest) :
    countTokenCalls cfg (a ++ b) = countTokenCalls cfg a + countTokenCalls cfg b := by
  unfold countTokenCalls
  rw [List.filter_append, List.length_append]

theorem countTokenCalls_token (cfg : Config) :
    countTokenCalls cfg [oauthTokenRequest cfg] = 1 := by
  simp [countTokenCalls, oauthTokenRequest]

theorem countTokenCalls_api (cfg : Config) (m p : String) (d : Option String)
    (hs : List (String × String)) :
    countTokenCalls cfg [{ method := m, url := apiURL cfg p, data := d, headers := hs }] = 0 := by
  simp [countTokenCalls]
  exact apiURL_ne_tokenURL cfg p

theorem get_ok_request (env : Env) (cfg : Config) (st : ClientState) (path : String)
    (resp : Response) (st1 : ClientState)
    (h : Client.get env cfg st path = .ok (resp, st1)) :
    Client.request env cfg st "GET" path none = .ok (resp, st1) := by
  unfold Client.get at h
  split at h
  · exact absurd h (by simp)
  · rename_i r s heq
    split at h
    · simp only [Except.ok.injEq, Prod.mk.injEq] at h
      rw [heq, h.1, h.2]
    · exact absurd h (by simp)

/-- C1: `_request` classifies the transport outcome three ways: an HTTP
error with status 401 raises `AuthError` with a message containing the code
and reason; an HTTP error with any other status does not raise and returns
a `Response` whose status is that code and whose body is the reason text;
a network-level error raises `ServiceNowError` wrapping the reason. -/
theorem request_dispatch_three_way_classification (env : Env) (st : ClientState)
    (m url : String) (d : Option String) (hs : List (String × String)) :
    (∀ reason,
        env.transport { method := m, url := url, data := d, headers := hs } =
          .httpError 401 reason →
        Client._request env st m url d hs =
          .error (.auth ("Failed to authenticate with the instance: 401 " ++ reason))) ∧
    (∀ code reason,
        env.transport { method := m, url := url, data := d, headers := hs } =
          .httpError code reason → code ≠ 401 →
        Client._request env st m url d hs =
          .ok (Response.make code reason,
            { st with calls :=
                st.calls ++ [{ method := m, url := url, data := d, headers := hs }] })) ∧
    (∀ reason,
        env.transport { method := m, url := url, data := d, headers := hs } =
          .urlError reason →
        Client._request env st m url d hs = .error (.serviceNow reason)) := by
  refine ⟨?_, ?_, ?_⟩
  · intro reason htr
    simp only [Client._request, htr]
    rfl
  · intro code reason htr hcode
    simp only [Client._request, htr]
    rw [if_neg hcode]
  · intro reason htr
    simp only [Client._request, htr]

theorem request_dispatch_three_way_classification_witness :
    Client._request (envHttpErr 401) freshState "GET" "u" none [] =
      .error (.auth ("Failed to authenticate with the instance: 401 " ++ "Oops")) ∧
    Client._request (envHttpErr 500) freshState "GET" "u" none [] =
      .ok (Response.make 500 "Oops",
        { authHeaderCache := none,
          calls := [{ method := "GET", url := "u", data := none, headers := [] }] }) ∧
    Client._request envNet freshState "GET" "u" none [] =
      .error (.serviceNow "no route to host") :=
  ⟨(request_dispatch_three_way_classification (envHttpErr 401) freshState
      "GET" "u" none []).1 "Oops" rfl,
   (request_dispatch_three_way_classification (envHttpErr 500) freshState
      "GET" "u" none []).2.1 500 "Oops" rfl (by decide),
   (request_dispatch_three_way_classification envNet freshState
      "GET" "u" none []).2.2 "no route to host" rfl⟩

/-- C3: `get` passes a `Response` with status 200 or 404 through unchanged
(404 is a valid not-found outcome, not an error) and raises
`UnexpectedAPIResponse` carrying the status and body for every other
status. -/
theorem get_status_contract (env : Env) (cfg : Config) (st : ClientState)
    (path : String) (resp : Response) (st1 : ClientState)
    (h : Client.request env cfg st "GET" path none = .ok (resp, st1)) :
    (resp.status = 200 ∨ resp.status = 404 →
        Client.get env cfg st path = .ok (resp, st1)) ∧
    (resp.status ≠ 200 → resp.status ≠ 404 →
        Client.get env cfg st path =
          .error (.unexpectedAPIResponse resp.status resp.data)) := by
  constructor
  · intro hs
    unfold Client.get
    rw [h]
    simp [hs]
  · intro h1 h2
    unfold Client.get
    rw [h]
    simp [h1, h2]

theorem get_status_contract_witness :
    Client.get (envOk 404) cfgBasic freshState "table/incident/123" =
      .ok (Response.make 404 "body",
        { authHeaderCache := some [("Authorization", "Basic dTpw")],
          calls := [{ method := "GET", url := apiURL cfgBasic "table/incident/123",
                      data := none,
                      headers := [("Accept", "application/json"),
                                  ("Authorization", "Basic dTpw")] }] }) ∧
    Client.get (envOk 500) cfgBasic freshState "table/incident/123" =
      .error (.unexpectedAPIResponse 500 "body") :=
  ⟨(get_status_contract (envOk 404) cfgBasic freshState "table/incident/123"
      (Response.make 404 "body") _ rfl).1 (Or.inr rfl),
   (get_status_contract (envOk 500) cfgBasic freshState "table/incident/123"
      (Response.make 500 "body") _ rfl).2 (by decide) (by decide)⟩

/-- C6: `post` returns the `Response` iff its status is 201, `put` iff the
status is 200, and `delete` returns normally with no value iff the status
is 204; in every other case the wrapper raises `UnexpectedAPIResponse`
carrying that exact status and the body. -/
theorem post_put_delete_status_contracts (env : Env) (cfg : Config)
    (st : ClientState) (path : String) (d : Json) :
    (∀ resp st1, Client.request env cfg st "POST" path (some d) = .ok (resp, st1) →
        (resp.status = 201 → Client.post env cfg st path d = .ok (resp, st1)) ∧
        (resp.status ≠ 201 →
          Client.post env cfg st path d =
            .error (.unexpectedAPIResponse resp.status resp.data))) ∧
    (∀ resp st1, Client.request env cfg st "PUT" path (some d) = .ok (resp, st1) →
        (resp.status = 200 → Client.put env cfg st path d = .ok (resp, st1)) ∧
        (resp.status ≠ 200 →
          Client.put env cfg st path d =
            .error (.unexpectedAPIResponse resp.status resp.data))) ∧
    (∀ resp st1, Client.request env cfg st "DELETE" path none = .ok (resp, st1) →
        (resp.status = 204 → Client.delete env cfg st path = .ok ((), st1)) ∧
        (resp.status ≠ 204 →
          Client.delete env cfg st path =
            .error (.unexpectedAPIResponse resp.status resp.data))) := by
  refine ⟨?_, ?_, ?_⟩
  · intro resp st1 h
    constructor
    · intro hs
      unfold Client.post
      rw [h]
      simp [hs]
    · intro hs
      unfold Client.post
      rw [h]
      simp [hs]
  · intro resp st1 h
    constructor
    · intro hs
      unfold Client.put
      rw [h]
      simp [hs]
    · intro hs
      unfold Client.put
      rw [h]
      simp [hs]
  · intro resp st1 h
    constructor
    · intro hs
      unfold Client.delete
      rw [h]
      simp [hs]
    · intro hs
      unfold Client.delete
      rw [h]
      simp [hs]

theorem post_put_delete_status_contracts_witness :
    (Client.post (envOk 201) cfgBasic freshState "table/incident"
        (Json.obj [("short_description", Json.str "x")])).isOk = true ∧
    Client.post (envOk 200) cfgBasic freshState "table/incident"
        (Json.obj [("short_description", Json.str "x")]) =
      .error (.unexpectedAPIResponse 200 "body") ∧
    (Client.put (envOk 200) cfgBasic freshState "table/incident/1"
        (Json.obj [("state", Json.str "2")])).isOk = true ∧
    Client.put (envOk 418) cfgBasic freshState "table/incident/1"
        (Json.obj [("state", Json.str "2")]) =
      .error (.unexpectedAPIResponse 418 "body") ∧
    (Client.delete (envOk 204) cfgBasic freshState "table/incident/1").isOk = true ∧
    Client.delete (envOk 500) cfgBasic freshState "table/incident/1" =
      .error (.unexpectedAPIResponse 500 "body") := by
  refine ⟨?_, ?_, ?_, ?_, ?_, ?_⟩
  · rw [((post_put_delete_status_contracts (envOk 201) cfgBasic freshState
        "table/incident" (Json.obj [("short_description", Json.str "x")])).1
        (Response.make 201 "body") _ rfl).1 rfl]
    rfl
  · exact ((post_put_delete_status_contracts (envOk 200) cfgBasic freshState
        "table/incident" (Json.obj [("short_description", Json.str "x")])).1
        (Response.make 200 "body") _ rfl).2 (by decide)
  · rw [((post_put_delete_status_contracts (envOk 200) cfgBasic freshState
        "table/incident/1" (Json.obj [("state", Json.str "2")])).2.1
        (Response.make 200 "body") _ rfl).1 rfl]
    rfl
  · exact ((post_put_delete_status_contracts (envOk 418) cfgBasic freshState
        "table/incident/1" (Json.obj [("state", Json.str "2")])).2.1
        (Response.make 418 "body") _ rfl).2 (by decide)
  · rw [((post_put_delete_status_contracts (envOk 204) cfgBasic freshState
        "table/incident/1" (Json.obj [("state", Json.str "2")])).2.2
        (Response.make 204 "body") _ rfl).1 rfl]
    rfl
  · exact ((post_put_delete_status_contracts (envOk 500) cfgBasic freshState
        "table/incident/1" (Json.obj [("state", Json.str "2")])).2.2
        (Response.make 500 "body") _ rfl).2 (by decide)

/-- C5: with no OAuth client id/secret supplied, `auth_header` is the
single-entry mapping binding `Authorization` to the standard basic-auth
encoding of the username/password pair, and computing it performs no
network call (the transport log is unchanged). -/
theorem basic_auth_no_network (env : Env) (cfg : Config) (st : ClientState)
    (hid : cfg.clientId = none) (hsec : cfg.clientSecret = none)
    (hfresh : headerCacheFalsy st.authHeaderCache = true) :
    Client.auth_header env cfg st =
      .ok ([("Authorization", basic_auth_header cfg.username cfg.password)],
        { authHeaderCache :=
            some [("Authorization", basic_auth_header cfg.username cfg.password)],
          calls := st.calls }) := by
  unfold Client.auth_header
  rw [hfresh]
  simp only [if_true]
  unfold Client._login
  rw [hid]
  simp [truthyOpt, Client._login_username_password]

theorem basic_auth_no_network_witness :
    Client.auth_header (envOk 200) cfgBasic freshState =
      .ok ([("Authorization", "Basic dTpw")],
        { authHeaderCache := some [("Authorization", "Basic dTpw")], calls := [] }) :=
  basic_auth_no_network (envOk 200) cfgBasic freshState rfl rfl rfl

/-- C10: authentication-strategy selection tests truthiness, not mere
presence: a client id or client secret equal to the empty string (even
though supplied) makes `_login` choose basic auth; the OAuth password
grant is selected only when both values are truthy (present and
non-empty). -/
theorem login_strategy_truthiness (env : Env) (cfg : Config) (st : ClientState) :
    ((cfg.clientId = some "" ∨ cfg.clientSecret = some "") →
        Client._login env cfg st = .ok (Client._login_username_password cfg, st)) ∧
    ((truthyOpt cfg.clientId = false ∨ truthyOpt cfg.clientSecret = false) →
        Client._login env cfg st = .ok (Client._login_username_password cfg, st)) ∧
    (truthyOpt cfg.clientId = true → truthyOpt cfg.clientSecret = true →
        Client._login env cfg st = Client._login_oauth env cfg st) := by
  have hbasic : ∀ hcond : truthyOpt cfg.clientId = false ∨ truthyOpt cfg.clientSecret = false,
      Client._login env cfg st = .ok (Client._login_username_password cfg, st) := by
    intro hcond
    unfold Client._login
    rcases hcond with hc | hc <;> rw [hc] <;> simp
  refine ⟨?_, hbasic, ?_⟩
  · intro hcond
    apply hbasic
    rcases hcond with hc | hc
    · left; rw [hc]; rfl
    · right; rw [hc]; rfl
  · intro h1 h2
    unfold Client._login
    rw [h1, h2]
    simp

/-- An OAuth-looking configuration whose client id was supplied but is the
empty string. -/
def cfgEmptyId : Config :=
  { host := "https://sn.example", username := "u", password := "p",
    clientId := some "", clientSecret := some "cs" }

theorem login_strategy_truthiness_witness :
    Client._login (envOk 200) cfgEmptyId freshState =
      .ok ([("Authorization", "Basic dTpw")], freshState) ∧
    Client._login (envOAuth 200) cfgOAuth freshState =
      Client._login_oauth (envOAuth 200) cfgOAuth freshState :=
  ⟨(login_strategy_truthiness (envOk 200) cfgEmptyId freshState).1 (Or.inl rfl),
   (login_strategy_truthiness (envOAuth 200) cfgOAuth freshState).2.2 rfl rfl⟩

theorem getJson_fresh_some (loads : String → Option Json) (r : Response) (j : Json)
    (hfresh : r.jsonCache = Json.null) (hl : loads r.data = some j) :
    Response.getJson loads r = .ok (j, { r with jsonCache := j }, 1) := by
  unfold Response.getJson
  rw [hfresh]
  simp only [Json.isNull, if_true, hl]

theorem getJson_fresh_none (loads : String → Option Json) (r : Response)
    (hfresh : r.jsonCache = Json.null) (hl : loads r.data = none) :
    Response.getJson loads r =
      .error (.serviceNow ("Received invalid JSON response: " ++ r.data)) := by
  unfold Response.getJson
  rw [hfresh]
  simp only [Json.isNull, if_true, hl]

theorem getJson_cached (loads : String → Option Json) (r : Response)
    (hc : r.jsonCache.isNull = false) :
    Response.getJson loads r = .ok (r.jsonCache, r, 0) := by
  unfold Response.getJson
  rw [hc]
  simp

theorem isNull_eq_false_of_ne (j : Json) (h : j ≠ Json.null) : j.isNull = false := by
  cases j with
  | null => exact absurd rfl h
  | bool b => rfl
  | num n => rfl
  | str s => rfl
  | arr xs => rfl
  | obj kvs => rfl

theorem getJson_after_stable (loads : String → Option Json) (r : Response) (j : Json)
    (hl : loads r.data = some j) :
    ∀ j2 r2 n2, Response.getJson loads { r with jsonCache := j } = .ok (j2, r2, n2) →
      j2 = j ∧ r2 = { r with jsonCache := j } := by
  intro j2 r2 n2 h2
  by_cases hj : j = Json.null
  · subst hj
    rw [getJson_fresh_some loads { r with jsonCache := Json.null } Json.null rfl hl] at h2
    simp only [Except.ok.injEq, Prod.mk.injEq] at h2
    exact ⟨h2.1.symm, h2.2.1.symm⟩
  · rw [getJson_cached loads { r with jsonCache := j }
        (isNull_eq_false_of_ne j hj)] at h2
    simp only [Except.ok.injEq, Prod.mk.injEq] at h2
    exact ⟨h2.1.symm, h2.2.1.symm⟩

/-- C4: for an OAuth-configured client, resolving the auth header issues a
POST to `<host>/oauth_token.do`; on status 200 with a JSON body holding
`access_token` T the header is `Authorization: Bearer T`; on any other
status `UnexpectedAPIResponse` is raised carrying that status and the raw
body. -/
theorem oauth_login_contract (env : Env) (cfg : Config) (st : ClientState)
    (hid : truthyOpt cfg.clientId = true) (hsec : truthyOpt cfg.clientSecret = true)
    (hfresh : headerCacheFalsy st.authHeaderCache = true) :
    (∀ body hdrs j tok,
        env.transport (oauthTokenRequest cfg) = .ok 200 body hdrs →
        env.loads body = some j →
        jsonGet j "access_token" = some (.str tok) →
        Client.auth_header env cfg st =
          .ok ([("Authorization", "Bearer " ++ tok)],
            { authHeaderCache := some [("Authorization", "Bearer " ++ tok)],
              calls := st.calls ++ [oauthTokenRequest cfg] })) ∧
    (∀ status body hdrs, status ≠ 200 →
        env.transport (oauthTokenRequest cfg) = .ok status body hdrs →
        Client.auth_header env cfg st = .error (.unexpectedAPIResponse status body)) := by
  constructor
  · intro body hdrs j tok htr hload hjget
    have htr' : env.transport
        { method := "POST", url := tokenURL cfg, data := some (oauthFormData cfg),
          headers := [("Accept", "application/json")] } = .ok 200 body hdrs := htr
    unfold Client.auth_header
    rw [hfresh]
    simp only [if_true]
    unfold Client._login
    rw [hid, hsec]
    simp only [Bool.and_self, if_true]
    simp only [Client._login_oauth, Client._request]
    rw [htr']
    simp [Response.make, Response.getJson, Json.isNull, hload, hjget, pyStr,
      oauthTokenRequest]
  · intro status body hdrs hstatus htr
    have htr' : env.transport
        { method := "POST", url := tokenURL cfg, data := some (oauthFormData cfg),
          headers := [("Accept", "application/json")] } = .ok status body hdrs := htr
    unfold Client.auth_header
    rw [hfresh]
    simp only [if_true]
    unfold Client._login
    rw [hid, hsec]
    simp only [Bool.and_self, if_true]
    simp only [Client._login_oauth, Client._request]
    rw [htr']
    simp [Response.make, hstatus]

theorem oauth_login_contract_witness :
    Client.auth_header (envOAuth 200) cfgOAuth freshState =
      .ok ([("Authorization", "Bearer T")],
        { authHeaderCache := some [("Authorization", "Bearer T")],
          calls := [oauthTokenRequest cfgOAuth] }) ∧
    Client.auth_header (envOAuthBad 403) cfgOAuth freshState =
      .error (.unexpectedAPIResponse 403 "denied") :=
  ⟨(oauth_login_contract (envOAuth 200) cfgOAuth freshState rfl rfl rfl).1
      "\x7b\"access_token\":\"T\"\x7d" [] (Json.obj [("access_token", Json.str "T")]) "T"
      rfl rfl rfl,
   (oauth_login_contract (envOAuthBad 403) cfgOAuth freshState rfl rfl rfl).2
      403 "denied" [] (by decide) rfl⟩

/-- C7: `request` dispatches to the URL formed by stripping the path's
trailing slashes, percent-encoding it and prefixing `<host>/api/now/`; the
headers are `Accept: application/json` merged with the auth header; a
present payload is serialized to compact JSON with
`Content-type: application/json` added, an absent one is passed through
with no body and no content-type. -/
theorem request_url_headers_payload (env : Env) (cfg : Config) (st : ClientState)
    (m path : String) (d : Json) (ah : List (String × String)) (st1 : ClientState)
    (hauth : Client.auth_header env cfg st = .ok (ah, st1)) :
    (Client.request env cfg st m path (some d) =
      Client._request env st1 m (cfg.host ++ "/api/now/" ++ quote (rstripSlashes path))
        (some (dumps d))
        (dictInsert (dictOf (("Accept", "application/json") :: ah))
          "Content-type" "application/json")) ∧
    (Client.request env cfg st m path none =
      Client._request env st1 m (cfg.host ++ "/api/now/" ++ quote (rstripSlashes path))
        none (dictOf (("Accept", "application/json") :: ah))) ∧
    (∀ resp st2, Client.request env cfg st m path (some d) = .ok (resp, st2) →
        st2.calls = st1.calls ++
          [{ method := m,
             url := cfg.host ++ "/api/now/" ++ quote (rstripSlashes path),
             data := some (dumps d),
             headers := dictInsert (dictOf (("Accept", "application/json") :: ah))
               "Content-type" "application/json" }]) := by
  have h1 : Client.request env cfg st m path (some d) =
      Client._request env st1 m (cfg.host ++ "/api/now/" ++ quote (rstripSlashes path))
        (some (dumps d))
        (dictInsert (dictOf (("Accept", "application/json") :: ah))
          "Content-type" "application/json") := by
    simp only [Client.request, hauth]
  have h2 : Client.request env cfg st m path none =
      Client._request env st1 m (cfg.host ++ "/api/now/" ++ quote (rstripSlashes path))
        none (dictOf (("Accept", "application/json") :: ah)) := by
    simp only [Client.request, hauth]
  refine ⟨h1, h2, ?_⟩
  intro resp st2 h
  rw [h1] at h
  have := _request_ok_state env st1 _ _ _ _ resp st2 h
  rw [this]

/-- C8 counterexample: a body of `null` is valid JSON, yet after a
successful access the cache slot still holds Python `None` (the same value
as the parsed JSON `null`), so the next access parses again: the access
returns the response unchanged with parse count 1, never with parse
count 0. -/
theorem response_json_null_body_reparses :
    Response.getJson toyLoads (Response.make 200 "null") =
      .ok (Json.null, Response.make 200 "null", 1) ∧
    ¬ (Response.getJson toyLoads (Response.make 200 "null") =
        .ok (Json.null, Response.make 200 "null", 0)) := by
  refine ⟨rfl, ?_⟩
  intro h
  have h1 : Response.getJson toyLoads (Response.make 200 "null") =
      .ok (Json.null, Response.make 200 "null", 1) := rfl
  rw [h1] at h
  simp at h

/-- C8 (amended): for a `Response` whose body is valid JSON, repeated
access to `json` never returns a different value once the parse result has
been computed; and whenever the parsed value is not JSON `null`, later
accesses perform no re-parse.  (A body parsing to JSON `null` is re-parsed
on every access, because the cache marks "unset" with the same value.) -/
theorem response_json_memoized_unless_null (loads : String → Option Json)
    (r : Response) (j : Json) (r' : Response) (n : Nat)
    (hfresh : r.jsonCache = Json.null)
    (h : Response.getJson loads r = .ok (j, r', n)) :
    (j ≠ Json.null → Response.getJson loads r' = .ok (j, r', 0)) ∧
    (∀ j2 r2 n2, Response.getJson loads r' = .ok (j2, r2, n2) →
        j2 = j ∧ r2 = r') := by
  unfold Response.getJson at h
  rw [hfresh] at h
  simp only [Json.isNull, if_true] at h
  cases hl : loads r.data with
  | none => rw [hl] at h; exact absurd h (by simp)
  | some j0 =>
    rw [hl] at h
    simp only [Except.ok.injEq, Prod.mk.injEq] at h
    obtain ⟨hj, hr, hn⟩ := h
    subst hj
    constructor
    · intro hne
      rw [← hr]
      exact getJson_cached loads _ (by simp [isNull_eq_false_of_ne j0 hne])
    · intro j2 r2 n2 h2
      rw [← hr] at h2
      have hst := getJson_after_stable loads r j0 hl j2 r2 n2 h2
      exact ⟨hst.1, by rw [← hr]; exact hst.2⟩

theorem response_json_memoized_unless_null_witness :
    Response.getJson toyLoads
      { status := 200, data := "\x7b\"a\":1\x7d", headers := [],
        jsonCache := Json.obj [("a", Json.num 1)] } =
      .ok (Json.obj [("a", Json.num 1)],
        { status := 200, data := "\x7b\"a\":1\x7d", headers := [],
          jsonCache := Json.obj [("a", Json.num 1)] }, 0) :=
  (response_json_memoized_unless_null toyLoads (Response.make 200 "\x7b\"a\":1\x7d")
      (Json.obj [("a", Json.num 1)])
      { status := 200, data := "\x7b\"a\":1\x7d", headers := [],
        jsonCache := Json.obj [("a", Json.num 1)] } 1 rfl rfl).1
    (fun hcontr => Json.noConfusion hcontr)

/-- C9: on a body that is not valid JSON, every access to `json` raises
`ServiceNowError` with message "Received invalid JSON response: `<data>`"
(its own error kind, not an HTTP-layer one); on a valid-JSON body it
returns the parsed structure on every call. -/
theorem response_json_error_and_value (loads : String → Option Json) (r : Response)
    (hfresh : r.jsonCache = Json.null) :
    (loads r.data = none →
        Response.getJson loads r =
          .error (.serviceNow ("Received invalid JSON response: " ++ r.data))) ∧
    (∀ j, loads r.data = some j →
        Response.getJson loads r = .ok (j, { r with jsonCache := j }, 1) ∧
        (∀ j2 r2 n2,
            Response.getJson loads { r with jsonCache := j } = .ok (j2, r2, n2) →
            j2 = j)) := by
  constructor
  · intro hl
    exact getJson_fresh_none loads r hfresh hl
  · intro j hl
    refine ⟨getJson_fresh_some loads r j hfresh hl, ?_⟩
    intro j2 r2 n2 h2
    exact (getJson_after_stable loads r j hl j2 r2 n2 h2).1

theorem response_json_error_and_value_witness :
    Response.getJson toyLoads (Response.make 200 "not json") =
      .error (.serviceNow ("Received invalid JSON response: " ++ "not json")) ∧
    Response.getJson toyLoads (Response.make 200 "\x7b\"a\":1\x7d") =
      .ok (Json.obj [("a", Json.num 1)],
        { status := 200, data := "\x7b\"a\":1\x7d", headers := [],
          jsonCache := Json.obj [("a", Json.num 1)] }, 1) :=
  ⟨(response_json_error_and_value toyLoads (Response.make 200 "not json") rfl).1 rfl,
   ((response_json_error_and_value toyLoads (Response.make 200 "\x7b\"a\":1\x7d")
      rfl).2 (Json.obj [("a", Json.num 1)]) rfl).1⟩

theorem request_url_headers_payload_witness :
    Client.request (envOk 201) cfgBasic freshState "POST" "table/incident/"
        (some (Json.obj [("short_description", Json.str "x")])) =
      Client._request (envOk 201)
        { authHeaderCache := some [("Authorization", "Basic dTpw")], calls := [] }
        "POST" "https://sn.example/api/now/table/incident"
        (some "\x7b\"short_description\":\"x\"\x7d")
        [("Accept", "application/json"), ("Authorization", "Basic dTpw"),
         ("Content-type", "application/json")] :=
  (request_url_headers_payload (envOk 201) cfgBasic freshState "POST" "table/incident/"
      (Json.obj [("short_description", Json.str "x")])
      [("Authorization", "Basic dTpw")]
      { authHeaderCache := some [("Authorization", "Basic dTpw")], calls := [] }
      rfl).1

theorem auth_header_nonfalsy_id (env : Env) (cfg : Config) (st : ClientState)
    (hd : List (String × String)) (st1 : ClientState)
    (hc : headerCacheFalsy st.authHeaderCache = false)
    (h : Client.auth_header env cfg st = .ok (hd, st1)) : st1 = st := by
  unfold Client.auth_header at h
  rw [hc] at h
  simp only [Bool.false_eq_true, if_false, Except.ok.injEq, Prod.mk.injEq] at h
  exact h.2.symm

/-- C2: `auth_header` is computed at most once per client lifetime: a
successful read leaves the value in the cache slot and any later read
returns the same mapping with the state unchanged; concretely, two
consecutive successful `get` calls on a fresh OAuth-configured client put
exactly one token-endpoint request in the transport log. -/
theorem auth_header_computed_at_most_once (env : Env) (cfg : Config) :
    (∀ st hd st1, Client.auth_header env cfg st = .ok (hd, st1) →
        st1.authHeaderCache = some hd ∧
        Client.auth_header env cfg st1 = .ok (hd, st1)) ∧
    (∀ p1 p2 r1 st1 r2 st2,
        truthyOpt cfg.clientId = true → truthyOpt cfg.clientSecret = true →
        Client.get env cfg freshState p1 = .ok (r1, st1) →
        Client.get env cfg st1 p2 = .ok (r2, st2) →
        countTokenCalls cfg st1.calls = 1 ∧ countTokenCalls cfg st2.calls = 1) := by
  constructor
  · intro st hd st1 h
    have hmemo := auth_header_ok_cache env cfg st hd st1 h
    exact ⟨hmemo.1, hmemo.2.2⟩
  · intro p1 p2 r1 st1 r2 st2 hid hsec h1 h2
    have hreq1 := get_ok_request env cfg freshState p1 r1 st1 h1
    obtain ⟨ah, sta, hauth, hcacheEq, body, hs, hcalls1⟩ :=
      request_ok_split env cfg freshState "GET" p1 none r1 st1 hreq1
    have hstaCalls : sta.calls = freshState.calls ++ [oauthTokenRequest cfg] :=
      auth_header_oauth_one_call env cfg freshState ah sta rfl hid hsec hauth
    have hmemo := auth_header_ok_cache env cfg freshState ah sta hauth
    have hc1 : countTokenCalls cfg st1.calls = 1 := by
      rw [hcalls1, hstaCalls, countTokenCalls_append, countTokenCalls_append,
        countTokenCalls_token, countTokenCalls_api]
      rfl
    refine ⟨hc1, ?_⟩
    have hreq2 := get_ok_request env cfg st1 p2 r2 st2 h2
    obtain ⟨ah2, stb, hauth2, hcacheEq2, body2, hs2, hcalls2⟩ :=
      request_ok_split env cfg st1 "GET" p2 none r2 st2 hreq2
    have hnf : headerCacheFalsy st1.authHeaderCache = false := by
      rw [hcacheEq, hmemo.1]
      cases hah : ah with
      | nil => exact absurd hah hmemo.2.1
      | cons a l => rfl
    have hstb : stb = st1 := auth_header_nonfalsy_id env cfg st1 ah2 stb hnf hauth2
    rw [hcalls2, hstb, countTokenCalls_append, countTokenCalls_api, hc1]


theorem auth_header_computed_at_most_once_witness :
    (Client.auth_header (envOAuth 200) cfgOAuth
        { authHeaderCache := some [("Authorization", "Bearer T")],
          calls := [oauthTokenRequest cfgOAuth] } =
      .ok ([("Authorization", "Bearer T")],
        { authHeaderCache := some [("Authorization", "Bearer T")],
          calls := [oauthTokenRequest cfgOAuth] })) ∧
    countTokenCalls cfgOAuth
      [oauthTokenRequest cfgOAuth,
       { method := "GET", url := apiURL cfgOAuth "a", data := none,
         headers := [("Accept", "application/json"), ("Authorization", "Bearer T")] }] = 1 ∧
    countTokenCalls cfgOAuth
      [oauthTokenRequest cfgOAuth,
       { method := "GET", url := apiURL cfgOAuth "a", data := none,
         headers := [("Accept", "application/json"), ("Authorization", "Bearer T")] },
       { method := "GET", url := apiURL cfgOAuth "b", data := none,
         headers := [("Accept", "application/json"), ("Authorization", "Bearer T")] }] = 1 := by
  refine ⟨?_, ?_, ?_⟩
  · exact ((auth_header_computed_at_most_once (envOAuth 200) cfgOAuth).1 freshState
      [("Authorization", "Bearer T")]
      { authHeaderCache := some [("Authorization", "Bearer T")],
        calls := [oauthTokenRequest cfgOAuth] } rfl).2
  · exact ((auth_header_computed_at_most_once (envOAuth 200) cfgOAuth).2 "a" "b"
      (Response.make 200 "body")
      { authHeaderCache := some [("Authorization", "Bearer T")],
        calls := [oauthTokenRequest cfgOAuth,
          { method := "GET", url := apiURL cfgOAuth "a", data := none,
            headers := [("Accept", "application/json"), ("Authorization", "Bearer T")] }] }
      (Response.make 200 "body")
      { authHeaderCache := some [("Authorization", "Bearer T")],
        calls := [oauthTokenRequest cfgOAuth,
          { method := "GET", url := apiURL cfgOAuth "a", data := none,
            headers := [("Accept", "application/json"), ("Authorization", "Bearer T")] },
          { method := "GET", url := apiURL cfgOAuth "b", data := none,
            headers := [("Accept", "application/json"), ("Authorization", "Bearer T")] }] }
      rfl rfl rfl rfl).1
  · exact ((auth_header_computed_at_most_once (envOAuth 200) cfgOAuth).2 "a" "b"
      (Response.make 200 "body")
      { authHeaderCache := some [("Authorization", "Bearer T")],
        calls := [oauthTokenRequest cfgOAuth,
          { method := "GET", url := apiURL cfgOAuth "a", data := none,
            headers := [("Accept", "application/json"), ("Authorization", "Bearer T")] }] }
      (Response.make 200 "body")
      { authHeaderCache := some [("Authorization", "Bearer T")],
        calls := [oauthTokenRequest cfgOAuth,
          { method := "GET", url := apiURL cfgOAuth "a", data := none,
            headers := [("Accept", "application/json"), ("Authorization", "Bearer T")] },
          { method := "GET", url := apiURL cfgOAuth "b", data := none,
            headers := [("Accept", "application/json"), ("Authorization", "Bearer T")] }] }
      rfl rfl rfl rfl).2
